import Mathlib

/-!
Shallow embedding of the `BedrockCwDashboard` CDK construct
(`src/unnamed/part_001`, class `BedrockCwDashboard`) and of the stack entry
point (`src/lib/cdk-anybooks-dashboard-stack.ts`).

Modelling conventions:
* A CDK `Duration` is its length in seconds (`Nat`); `Duration.minutes m = 60 * m`.
* A CloudWatch `Metric` is the record of constructor arguments used in the source.
* A widget is one of the constructor calls appearing in the source, with the
  argument records kept field-for-field.
* `Dashboard.addWidgets ws` appends the widget list `ws` as one new row (CDK
  lays every `addWidgets` call out as one row); the dashboard state is the
  ordered list of rows.
* JavaScript number truthiness (`if (x && y)`) is `jsTruthy`: an optional
  number is truthy iff it is present and nonzero.
* JavaScript string concatenation with a possibly-`undefined` operand
  (`modelId + props.imageSize`) is `jsConcatOpt`: an absent operand contributes
  the text "undefined".
* The `MathExpression` strings built by template interpolation
  (e.g. `inputTokens / 1000 * ${props.inputTokenPrice}`) are kept as arithmetic
  ASTs (`Expr`) whose evaluation is the arithmetic the string denotes.
-/

namespace BedrockCW

/-- CDK `Duration.minutes`, measured in seconds. -/
def Duration.minutes (m : Nat) : Nat := 60 * m

/-- CloudWatch statistic names used by the source (`Stats.SUM` etc.). -/
inductive Stats
  | SUM
  | AVERAGE
  | MINIMUM
  | MAXIMUM
deriving DecidableEq, Repr

/-- CDK palette constant `Color.RED`. -/
def Color.RED : String := "#d62728"

/-- CDK palette constant `Color.ORANGE`. -/
def Color.ORANGE : String := "#ff7f0e"

/-- CDK `LegendPosition` values used by the source. -/
inductive LegendPosition
  | BOTTOM
deriving DecidableEq, Repr

/-- CDK `Shading` values used in gauge threshold bands. -/
inductive Shading
  | BELOW
  | ABOVE
deriving DecidableEq, Repr

/-- CDK `LogQueryVisualizationType` values used by the source. -/
inductive LogQueryVisualizationType
  | PIE
  | TABLE
deriving DecidableEq, Repr

/-- A CloudWatch metric reference: the record of arguments passed to
`new Metric({...})` in the source. -/
structure Metric where
  namespaceName : String
  metricName : String
  dimensionsMap : List (String × String) := []
  statistic : Stats
  period : Nat
  color : Option String := none
  label : Option String := none
deriving DecidableEq, Repr

/-- Arithmetic abstract syntax of a CloudWatch math-expression string. -/
inductive Expr
  | var : String → Expr
  | lit : ℚ → Expr
  | add : Expr → Expr → Expr
  | mul : Expr → Expr → Expr
  | div : Expr → Expr → Expr
deriving DecidableEq, Repr

/-- Value of a math-expression under an assignment of its metric variables. -/
def Expr.eval (env : String → ℚ) : Expr → ℚ
  | .var s => env s
  | .lit q => q
  | .add a b => a.eval env + b.eval env
  | .mul a b => a.eval env * b.eval env
  | .div a b => a.eval env / b.eval env

/-- A CDK `MathExpression`: expression AST, metric bindings, display label. -/
structure MathExpression where
  expression : Expr
  usingMetrics : List (String × Metric)
  label : String
deriving DecidableEq, Repr

/-- One series plotted on a graph widget axis: a plain metric or a math
expression. -/
inductive GraphSeries
  | metric : Metric → GraphSeries
  | math : MathExpression → GraphSeries
deriving DecidableEq, Repr

/-- CDK `YAxisProps`. -/
structure YAxis where
  label : Option String := none
  showUnits : Option Bool := none
  min : Option Nat := none
  max : Option Nat := none
deriving DecidableEq, Repr

/-- One CDK `HorizontalAnnotation` (a threshold band on a gauge or graph). -/
structure AnnotationSpec where
  color : String
  label : String
  value : Nat
  fill : Option Shading := none
deriving DecidableEq, Repr

/-- Arguments of `new TextWidget({...})`. -/
structure TextWidgetProps where
  markdown : String
  width : Nat
  height : Option Nat := none
deriving DecidableEq, Repr

/-- Arguments of `new SingleValueWidget({...})`. -/
structure SingleValueWidgetProps where
  title : String
  metrics : List Metric
  setPeriodToTimeRange : Bool := false
  width : Nat
  height : Option Nat := none
  period : Option Nat := none
deriving DecidableEq, Repr

/-- Arguments of `new GraphWidget({...})`. -/
structure GraphWidgetProps where
  title : String
  left : List GraphSeries := []
  right : List GraphSeries := []
  leftYAxis : Option YAxis := none
  rightYAxis : Option YAxis := none
  leftAnnotations : List AnnotationSpec := []
  period : Option Nat := none
  width : Nat
  height : Option Nat := none
deriving DecidableEq, Repr

/-- Arguments of `new GaugeWidget({...})`. -/
structure GaugeWidgetProps where
  title : String
  metrics : List Metric
  width : Nat
  height : Nat
  period : Nat
  setPeriodToTimeRange : Bool
  liveData : Bool
  leftYAxis : YAxis
  legendPosition : LegendPosition
  annotations : List AnnotationSpec
deriving DecidableEq, Repr

/-- Arguments of `new LogQueryWidget({...})`. -/
structure LogQueryWidgetProps where
  title : String
  logGroupNames : List String
  queryString : String
  view : LogQueryVisualizationType
  width : Nat
  height : Option Nat := none
deriving DecidableEq, Repr

/-- Arguments of `new AlarmStatusWidget({...})`; alarms are kept as the ARN
strings passed to `Alarm.fromAlarmArn`. -/
structure AlarmStatusWidgetProps where
  title : String
  alarms : List String
  width : Nat
  height : Nat
deriving DecidableEq, Repr

/-- A dashboard widget: one of the widget constructor calls in the source. -/
inductive Widget
  | text : TextWidgetProps → Widget
  | singleValue : SingleValueWidgetProps → Widget
  | graph : GraphWidgetProps → Widget
  | gauge : GaugeWidgetProps → Widget
  | logQuery : LogQueryWidgetProps → Widget
  | alarmStatus : AlarmStatusWidgetProps → Widget
deriving DecidableEq, Repr

/-- The dashboard resource: its name and its ordered list of widget rows. -/
structure Dashboard where
  dashboardName : String
  widgets : List (List Widget) := []
deriving DecidableEq, Repr

/-- `dashboard.addWidgets(...)`: appends the given widgets as one new row. -/
def Dashboard.addWidgets (d : Dashboard) (ws : List Widget) : Dashboard :=
  { d with widgets := d.widgets ++ [ws] }

/-- The `ModelMonitoringProps` interface of the source: all fields optional. -/
structure ModelMonitoringProps where
  period : Option Nat := none
  imageSize : Option String := none
  bucketedStepSize : Option String := none
  inputTokenPrice : Option ℚ := none
  outputTokenPrice : Option ℚ := none
deriving DecidableEq, Repr

/-- JavaScript truthiness of an optional number: present and nonzero. -/
def jsTruthy (o : Option ℚ) : Bool :=
  match o with
  | none => false
  | some q => decide (q ≠ 0)

/-- JavaScript `+` between a string and a possibly-`undefined` string operand:
an absent operand is rendered as the text "undefined". -/
def jsConcatOpt (s : String) (o : Option String) : String :=
  s ++ o.getD "undefined"

/-- The `pricingWidget` built at lines 295–338 of the source: defined (as
`Token Cost (USD)` graph) exactly when
`props.inputTokenPrice && props.outputTokenPrice` is truthy. -/
def pricingWidgetOf (modelInputTokensMetric modelOutputTokensMetric : Metric)
    (inputTokenPrice outputTokenPrice : Option ℚ) : Option Widget :=
  if jsTruthy inputTokenPrice && jsTruthy outputTokenPrice then
    some (Widget.graph {
      title := "Token Cost (USD)",
      left := [
        GraphSeries.math {
          expression := Expr.mul (Expr.div (Expr.var "inputTokens") (Expr.lit 1000))
            (Expr.lit (inputTokenPrice.getD 0)),
          usingMetrics := [("inputTokens", modelInputTokensMetric)],
          label := "Input Token Cost" },
        GraphSeries.math {
          expression := Expr.mul (Expr.div (Expr.var "outputTokens") (Expr.lit 1000))
            (Expr.lit (outputTokenPrice.getD 0)),
          usingMetrics := [("outputTokens", modelOutputTokensMetric)],
          label := "Output Token Cost" }],
      leftYAxis := some { label := some "Input and Output", showUnits := some false },
      right := [
        GraphSeries.math {
          expression := Expr.add
            (Expr.mul (Expr.div (Expr.var "inputTokens") (Expr.lit 1000))
              (Expr.lit (inputTokenPrice.getD 0)))
            (Expr.mul (Expr.div (Expr.var "outputTokens") (Expr.lit 1000))
              (Expr.lit (outputTokenPrice.getD 0))),
          usingMetrics := [("inputTokens", modelInputTokensMetric),
                           ("outputTokens", modelOutputTokensMetric)],
          label := "Total Cost" }],
      rightYAxis := some { label := some "Total", showUnits := some false },
      width := 12,
      height := some 10 })
  else none

/-- `BedrockCwDashboard.addModelMonitoring(modelName, modelId, props)`,
lines 142–391 of the source. -/
def addModelMonitoring (d : Dashboard) (modelName modelId : String)
    (props : ModelMonitoringProps := {}) : Dashboard :=
  let period := props.period.getD (Duration.minutes 1)
  let outputImageCountDimension :=
    jsConcatOpt (jsConcatOpt modelId props.imageSize) props.bucketedStepSize
  let modelInputTokensMetric : Metric := {
    namespaceName := "AWS/Bedrock", metricName := "InputTokenCount",
    dimensionsMap := [("ModelId", modelId)], statistic := Stats.SUM, period := period }
  let modelOutputTokensMetric : Metric := {
    namespaceName := "AWS/Bedrock", metricName := "OutputTokenCount",
    dimensionsMap := [("ModelId", modelId)], statistic := Stats.SUM, period := period }
  let modelOutputImageMetric : Metric := {
    namespaceName := "AWS/Bedrock", metricName := "OutputImageCount",
    dimensionsMap := [("ModelId", outputImageCountDimension)],
    statistic := Stats.SUM, period := period }
  let modelLatencyAvgMetric : Metric := {
    namespaceName := "AWS/Bedrock", metricName := "InvocationLatency",
    dimensionsMap := [("ModelId", modelId)], statistic := Stats.AVERAGE, period := period }
  let modelLatencyMinMetric : Metric := {
    namespaceName := "AWS/Bedrock", metricName := "InvocationLatency",
    dimensionsMap := [("ModelId", modelId)], statistic := Stats.MINIMUM, period := period }
  let modelLatencyMaxMetric : Metric := {
    namespaceName := "AWS/Bedrock", metricName := "InvocationLatency",
    dimensionsMap := [("ModelId", modelId)], statistic := Stats.MAXIMUM, period := period }
  let modelInvocationsCountMetric : Metric := {
    namespaceName := "AWS/Bedrock", metricName := "Invocations",
    dimensionsMap := [("ModelId", modelId)], statistic := Stats.SUM, period := period }
  let modelInvocationsClientErrorsMetric : Metric := {
    namespaceName := "AWS/Bedrock", metricName := "InvocationClientErrors",
    dimensionsMap := [("ModelId", modelId)], statistic := Stats.SUM, period := period }
  let modelInvocationsServerErrorsMetric : Metric := {
    namespaceName := "AWS/Bedrock", metricName := "InvocationServerErrors",
    dimensionsMap := [("ModelId", modelId)], statistic := Stats.SUM, period := period }
  let modelInvocationsThrottlesErrorsMetric : Metric := {
    namespaceName := "AWS/Bedrock", metricName := "InvocationThrottles",
    dimensionsMap := [("ModelId", modelId)], statistic := Stats.SUM, period := period }
  let modelInvocationsLegacysMetric : Metric := {
    namespaceName := "AWS/Bedrock", metricName := "LegacyModelInvocations",
    dimensionsMap := [("ModelId", modelId)], statistic := Stats.SUM, period := period }
  let d := d.addWidgets [
    Widget.text { markdown := "# " ++ modelName, width := 24 }]
  let d := d.addWidgets [
    Widget.singleValue {
      title := "Average Latency", metrics := [modelLatencyAvgMetric],
      setPeriodToTimeRange := true, width := 8 },
    Widget.singleValue {
      title := "Min Latency", metrics := [modelLatencyMinMetric],
      setPeriodToTimeRange := true, width := 8 },
    Widget.singleValue {
      title := "Max Latency", metrics := [modelLatencyMaxMetric],
      setPeriodToTimeRange := true, width := 8 }]
  let pricingWidget :=
    pricingWidgetOf modelInputTokensMetric modelOutputTokensMetric
      props.inputTokenPrice props.outputTokenPrice
  let d := d.addWidgets ([
    Widget.graph {
      title := "Input and Output Token Counts",
      left := [GraphSeries.metric modelInputTokensMetric],
      right := [GraphSeries.metric modelOutputTokensMetric],
      period := some period, width := 12, height := some 10 }] ++ pricingWidget.toList)
  let d := d.addWidgets [
    Widget.singleValue {
      title := "Invocations", metrics := [modelInvocationsCountMetric],
      setPeriodToTimeRange := true, width := 4 },
    Widget.singleValue {
      title := "Client Errors",
      metrics := [modelInvocationsClientErrorsMetric],
      setPeriodToTimeRange := true, width := 4 },
    Widget.singleValue {
      title := "Server Errors",
      metrics := [modelInvocationsServerErrorsMetric],
      setPeriodToTimeRange := true, width := 4 },
    Widget.singleValue {
      title := "Throttled invocations",
      metrics := [modelInvocationsThrottlesErrorsMetric],
      setPeriodToTimeRange := true, width := 4 },
    Widget.singleValue {
      title := "Legacy invocations",
      metrics := [modelInvocationsLegacysMetric],
      setPeriodToTimeRange := true, width := 4 },
    Widget.singleValue {
      title := "OutputImageCount", metrics := [modelOutputImageMetric],
      setPeriodToTimeRange := true, width := 4 }]
  d

/-- `BedrockCwDashboard.addAllModelsMonitoring(props)`, lines 396–744 of the
source. -/
def addAllModelsMonitoring (d : Dashboard) (props : ModelMonitoringProps := {}) :
    Dashboard :=
  let period := props.period.getD (Duration.minutes 1)
  let color := "#caedfc"
  let inputTokensAllModelsMetric : Metric := {
    namespaceName := "AWS/Bedrock", metricName := "InputTokenCount",
    statistic := Stats.SUM, period := period }
  let outputTokensAllModelsMetric : Metric := {
    namespaceName := "AWS/Bedrock", metricName := "OutputTokenCount",
    statistic := Stats.SUM, period := period }
  let titanEmbedTextV2modelLatencyAvgMetric : Metric := {
    namespaceName := "AWS/Bedrock", metricName := "InvocationLatency",
    dimensionsMap :=
      [("ModelId", "arn:aws:bedrock:us-west-2::foundation-model/amazon.titan-embed-text-v2:0")],
    statistic := Stats.AVERAGE, period := period, color := some color,
    label := some "평균 호출 지연 시간" }
  let claude35sonnetmodelLatencyAvgMetric : Metric := {
    namespaceName := "AWS/Bedrock", metricName := "InvocationLatency",
    dimensionsMap := [("ModelId", "anthropic.claude-3-5-sonnet-20241022-v2:0")],
    statistic := Stats.AVERAGE, period := period, color := some color,
    label := some "평균 호출 지연 시간" }
  let claude35sonnetmodelInvocationsPerMinMetric : Metric := {
    namespaceName := "AWS/Bedrock", metricName := "Invocations",
    dimensionsMap := [("ModelId", "anthropic.claude-3-5-sonnet-20241022-v2:0")],
    statistic := Stats.SUM, period := Duration.minutes 1, color := some color,
    label := some "1분당 호출 수" }
  let latencyAvgAllModelsMetric : Metric := {
    namespaceName := "AWS/Bedrock", metricName := "InvocationLatency",
    statistic := Stats.AVERAGE, period := period, color := some color }
  let latencyMinAllModelsMetric : Metric := {
    namespaceName := "AWS/Bedrock", metricName := "InvocationLatency",
    statistic := Stats.MINIMUM, period := period, color := some color }
  let latencyMaxAllModelsMetric : Metric := {
    namespaceName := "AWS/Bedrock", metricName := "InvocationLatency",
    statistic := Stats.MAXIMUM, period := period, color := some color }
  let invocationsCountAllModelsMetric : Metric := {
    namespaceName := "AWS/Bedrock", metricName := "Invocations",
    statistic := Stats.SUM, period := period, color := some color,
    label := some "전체 호출 수" }
  let invocationsClientErrorsAllModelsMetric : Metric := {
    namespaceName := "AWS/Bedrock", metricName := "InvocationClientErrors",
    statistic := Stats.SUM, period := period, color := some color }
  let invocationsServerErrorsAllModelsMetric : Metric := {
    namespaceName := "AWS/Bedrock", metricName := "InvocationServerErrors",
    statistic := Stats.SUM, period := period, color := some color }
  let invocationsThrottlesErrorsMetric : Metric := {
    namespaceName := "AWS/Bedrock", metricName := "InvocationThrottles",
    statistic := Stats.SUM, period := period, color := some color }
  let guadrailsInvocationsIntervenedMetric : Metric := {
    namespaceName := "AWS/Bedrock/Guardrails", metricName := "InvocationsIntervened",
    dimensionsMap := [("Operation", "ApplyGuardrail")],
    statistic := Stats.SUM, period := period, color := some Color.RED }
  let guadrailsTextUnitCountTextUnitCountMetric : Metric := {
    namespaceName := "AWS/Bedrock/Guardrails", metricName := "TextUnitCount",
    dimensionsMap := [("Operation", "ApplyGuardrail")],
    statistic := Stats.SUM, period := period, color := some Color.ORANGE }
  let gaugeAnnotationSpecs : List AnnotationSpec := [
    { color := "#b2df8d", label := "5초 미만", value := 5000, fill := some Shading.BELOW },
    { color := "#f89256", label := "5초 초과 8초 미만", value := 5000, fill := some Shading.ABOVE },
    { color := "#fe6e73", label := "8초 초과", value := 8000, fill := some Shading.ABOVE }]
  let d := d.addWidgets [
    Widget.text {
      markdown := "# 🎯 AnyBooks Chatbot 모니터링 대시보드 \n AnyBooks의 챗봇에 대한 핵심 모니터링 위젯들을 제공합니다: \n"
        ++ "* 모델 호출 수 \n * 모델별 지연 시간 \n * 모델별 input/output 토큰 수 \n * 토큰 사용량에 따른 비용 산정 \n * 에러 수 (Client/Server Error, Throttling Errors) \n"
        ++ "* 애플리케이션 로그",
      width := 6, height := some 6 },
    Widget.gauge {
      title := "Average Latency (All Models)",
      metrics := [latencyAvgAllModelsMetric],
      width := 6, height := 6, period := period, setPeriodToTimeRange := true,
      liveData := true, leftYAxis := { min := some 0, max := some 15000 },
      legendPosition := LegendPosition.BOTTOM,
      annotations := gaugeAnnotationSpecs },
    Widget.gauge {
      title := "Min Latency (All Models)",
      metrics := [latencyMinAllModelsMetric],
      width := 6, height := 6, period := period, setPeriodToTimeRange := true,
      liveData := true, leftYAxis := { min := some 0, max := some 15000 },
      legendPosition := LegendPosition.BOTTOM,
      annotations := gaugeAnnotationSpecs },
    Widget.gauge {
      title := "Max Latency (All Models)",
      metrics := [latencyMaxAllModelsMetric],
      width := 6, height := 6, period := period, setPeriodToTimeRange := true,
      liveData := true, leftYAxis := { min := some 0, max := some 15000 },
      legendPosition := LegendPosition.BOTTOM,
      annotations := gaugeAnnotationSpecs }]
  let d := d.addWidgets [
    Widget.graph {
      title := "Input and Output Tokens (All Models)",
      left := [GraphSeries.metric inputTokensAllModelsMetric],
      right := [GraphSeries.metric outputTokensAllModelsMetric],
      period := some period, width := 12 },
    Widget.singleValue {
      title := "Invocations (All Models)",
      metrics := [invocationsCountAllModelsMetric],
      width := 4, height := some 4, period := some period,
      setPeriodToTimeRange := true },
    Widget.singleValue {
      title := "[Titan Text Embeddings V2] Invocation Latency",
      metrics := [titanEmbedTextV2modelLatencyAvgMetric],
      width := 4, height := some 4, period := some period,
      setPeriodToTimeRange := true },
    Widget.singleValue {
      title := "[Claude 3.5 Sonnet] Invocation Latency",
      metrics := [claude35sonnetmodelLatencyAvgMetric],
      width := 4, height := some 4, period := some period,
      setPeriodToTimeRange := true },
    Widget.singleValue {
      title := "Client Errors (All Models)",
      metrics := [invocationsClientErrorsAllModelsMetric],
      period := some period, setPeriodToTimeRange := true, width := 4 },
    Widget.singleValue {
      title := "Server Errors (All Models)",
      metrics := [invocationsServerErrorsAllModelsMetric],
      period := some period, setPeriodToTimeRange := true, width := 4 },
    Widget.singleValue {
      title := "Throttling Errors (All Models)",
      metrics := [invocationsThrottlesErrorsMetric],
      period := some period, setPeriodToTimeRange := true, width := 4 },
    Widget.graph {
      title := "[Claude 3.5 Sonnet] 분당 호출 수",
      period := some (Duration.minutes 1), width := 6, height := some 5,
      left := [GraphSeries.metric claude35sonnetmodelInvocationsPerMinMetric],
      leftAnnotations := [{ color := "#ff0000", label := "Quota limit", value := 250 }] },
    Widget.logQuery {
      title := "응답 선호도",
      logGroupNames := ["anybooks-streamlit-app"],
      queryString := "\n              fields @timestamp, @message\n              | filter @message like \"[Feedback]\"\n              | parse @message \"[Feedback] *\" as feedback\n              | stats count() as count by feedback\n            ",
      view := LogQueryVisualizationType.PIE, width := 6, height := some 5 },
    Widget.singleValue {
      title := "가드레일이 개입된 호출 수",
      metrics := [guadrailsInvocationsIntervenedMetric],
      width := 6, height := some 4, period := some period,
      setPeriodToTimeRange := true },
    Widget.singleValue {
      title := "가드레일 정책이 소비한 text unit 수",
      metrics := [guadrailsTextUnitCountTextUnitCountMetric],
      width := 6, height := some 4, period := some period,
      setPeriodToTimeRange := true },
    Widget.logQuery {
      title := "결제 성공 / 실패",
      logGroupNames := ["/aws/lambda/lambda-bedrock-agent"],
      queryString := "\n              fields @timestamp, @message\n              | filter @message like \"[PAY]\"\n              | parse @message \"[PAY]*\" as payment\n              | stats count() as count by payment\n            ",
      view := LogQueryVisualizationType.PIE, width := 6, height := some 4 },
    Widget.alarmStatus {
      title := "알람 발생 현황",
      alarms := [
        "arn:aws:cloudwatch:us-west-2:682033488544:alarm:Bedrock 모델 호출 수 임계치 초과",
        "arn:aws:cloudwatch:us-west-2:682033488544:alarm:Action Group Lambda 에러 수 임계치 초과",
        "arn:aws:cloudwatch:us-west-2:682033488544:alarm:Claude 3.5 Sonnet V2 호출 비용 임계치 초과"],
      width := 6, height := 4 },
    Widget.logQuery {
      title := "결제 로그",
      logGroupNames := ["/aws/lambda/lambda-bedrock-agent"],
      queryString := "\n              filter @message like \"[PAY]\"\n              | fields @timestamp\n              | parse @message \"[PAY]*\" as payment\n              | fields @logStream, @log\n              | sort @timestamp desc\n              | limit 100\n            ",
      view := LogQueryVisualizationType.TABLE, width := 24 }]
  d

/-- The `BedrockCwDashboardProps` interface of the source. -/
structure BedrockCwDashboardProps where
  existingDashboard : Option Dashboard := none
  dashboardName : Option String := none
deriving DecidableEq, Repr

/-- State produced by the `BedrockCwDashboard` constructor: the owned dashboard
and the string value registered as the `CfnOutput` (the console URL). -/
structure BedrockCwDashboard where
  dashboard : Dashboard
  outputValue : String
deriving DecidableEq, Repr

/-- The `BedrockCwDashboard` constructor, lines 123–135 of the source.
`region` stands for the deploy-time value of `Aws.REGION`; a freshly created
dashboard starts with no widgets. -/
def mkBedrockCwDashboard (region : String) (props : BedrockCwDashboardProps := {}) :
    BedrockCwDashboard :=
  let dashboard := props.existingDashboard.getD {
    dashboardName := props.dashboardName.getD "AnyBooksMonitoringDashboard",
    widgets := [] }
  let cloudwatchDashboardURL :=
    "https://" ++ region ++ ".console.aws.amazon.com/cloudwatch/home?region=" ++ region
      ++ "#dashboards:name=" ++ dashboard.dashboardName
  { dashboard := dashboard, outputValue := cloudwatchDashboardURL }

/-! ### Observation helpers over the embedded widget model -/

/-- The shape shared by all per-model metrics of `addModelMonitoring`:
namespace `AWS/Bedrock`, one `ModelId` dimension, given statistic and period. -/
def bedrockModelMetric (metricName modelIdDim : String) (statistic : Stats)
    (period : Nat) : Metric :=
  { namespaceName := "AWS/Bedrock", metricName := metricName,
    dimensionsMap := [("ModelId", modelIdDim)], statistic := statistic, period := period }

/-- All metric references plotted by one graph series. -/
def GraphSeries.metricRefs : GraphSeries → List Metric
  | .metric m => [m]
  | .math e => e.usingMetrics.map Prod.snd

/-- All metric references a widget is bound to (including the metrics bound
inside math expressions). -/
def Widget.metricRefs : Widget → List Metric
  | .text _ => []
  | .singleValue p => p.metrics
  | .graph p => ((p.left ++ p.right).map GraphSeries.metricRefs).flatten
  | .gauge p => p.metrics
  | .logQuery _ => []
  | .alarmStatus _ => []

/-- Whether a widget is the cost-projection graph (`Token Cost (USD)`). -/
def Widget.isCostWidget : Widget → Bool
  | .graph g => g.title == "Token Cost (USD)"
  | _ => false

/-- Whether a widget is a gauge widget. -/
def Widget.isGauge : Widget → Bool
  | .gauge _ => true
  | _ => false

/-- The widget rows appended by one `addModelMonitoring` call (the call is
insensitive to the dashboard it is applied to, see
`addModelMonitoring_widgets`). -/
def modelMonitoringRows (modelName modelId : String) (props : ModelMonitoringProps) :
    List (List Widget) :=
  (addModelMonitoring { dashboardName := "", widgets := [] } modelName modelId props).widgets

/-- The widget rows appended by one `addAllModelsMonitoring` call. -/
def allModelsMonitoringRows (props : ModelMonitoringProps) : List (List Widget) :=
  (addAllModelsMonitoring { dashboardName := "", widgets := [] } props).widgets

/-- The gauge widgets contained in a list of widget rows, in order. -/
def gaugeWidgetsOf (rows : List (List Widget)) : List GaugeWidgetProps :=
  rows.flatten.filterMap (fun w =>
    match w with
    | Widget.gauge g => some g
    | _ => none)

/-- The graph widgets titled `[Claude 3.5 Sonnet] 분당 호출 수` contained in a
list of widget rows, in order. -/
def claudePerMinGraphsOf (rows : List (List Widget)) : List GraphWidgetProps :=
  rows.flatten.filterMap (fun w =>
    match w with
    | Widget.graph g =>
        if g.title == "[Claude 3.5 Sonnet] 분당 호출 수" then some g else none
    | _ => none)

/-- `addModelMonitoring` only appends: its result is the rows of the input dashboard
followed by rows that do not depend on the input dashboard. -/
theorem addModelMonitoring_widgets (d : Dashboard) (modelName modelId : String)
    (props : ModelMonitoringProps) :
    (addModelMonitoring d modelName modelId props).widgets
      = d.widgets ++ modelMonitoringRows modelName modelId props := by
  simp [addModelMonitoring, modelMonitoringRows, Dashboard.addWidgets]

/-- `addAllModelsMonitoring` only appends: its result is the rows of the input
dashboard followed by rows that do not depend on the input dashboard. -/
theorem addAllModelsMonitoring_widgets (d : Dashboard) (props : ModelMonitoringProps) :
    (addAllModelsMonitoring d props).widgets = d.widgets ++ allModelsMonitoringRows props := by
  simp [addAllModelsMonitoring, allModelsMonitoringRows, Dashboard.addWidgets]

/-- Computed form of the four rows appended by one `addModelMonitoring` call. -/
theorem modelMonitoringRows_eq (modelName modelId : String) (props : ModelMonitoringProps) :
    modelMonitoringRows modelName modelId props =
      [[Widget.text { markdown := "# " ++ modelName, width := 24 }],
       [Widget.singleValue {
          title := "Average Latency",
          metrics := [bedrockModelMetric "InvocationLatency" modelId Stats.AVERAGE
            (props.period.getD (Duration.minutes 1))],
          setPeriodToTimeRange := true, width := 8 },
        Widget.singleValue {
          title := "Min Latency",
          metrics := [bedrockModelMetric "InvocationLatency" modelId Stats.MINIMUM
            (props.period.getD (Duration.minutes 1))],
          setPeriodToTimeRange := true, width := 8 },
        Widget.singleValue {
          title := "Max Latency",
          metrics := [bedrockModelMetric "InvocationLatency" modelId Stats.MAXIMUM
            (props.period.getD (Duration.minutes 1))],
          setPeriodToTimeRange := true, width := 8 }],
       Widget.graph {
          title := "Input and Output Token Counts",
          left := [GraphSeries.metric (bedrockModelMetric "InputTokenCount" modelId Stats.SUM
            (props.period.getD (Duration.minutes 1)))],
          right := [GraphSeries.metric (bedrockModelMetric "OutputTokenCount" modelId Stats.SUM
            (props.period.getD (Duration.minutes 1)))],
          period := some (props.period.getD (Duration.minutes 1)),
          width := 12, height := some 10 }
         :: (pricingWidgetOf
              (bedrockModelMetric "InputTokenCount" modelId Stats.SUM
                (props.period.getD (Duration.minutes 1)))
              (bedrockModelMetric "OutputTokenCount" modelId Stats.SUM
                (props.period.getD (Duration.minutes 1)))
              props.inputTokenPrice props.outputTokenPrice).toList,
       [Widget.singleValue {
          title := "Invocations",
          metrics := [bedrockModelMetric "Invocations" modelId Stats.SUM
            (props.period.getD (Duration.minutes 1))],
          setPeriodToTimeRange := true, width := 4 },
        Widget.singleValue {
          title := "Client Errors",
          metrics := [bedrockModelMetric "InvocationClientErrors" modelId Stats.SUM
            (props.period.getD (Duration.minutes 1))],
          setPeriodToTimeRange := true, width := 4 },
        Widget.singleValue {
          title := "Server Errors",
          metrics := [bedrockModelMetric "InvocationServerErrors" modelId Stats.SUM
            (props.period.getD (Duration.minutes 1))],
          setPeriodToTimeRange := true, width := 4 },
        Widget.singleValue {
          title := "Throttled invocations",
          metrics := [bedrockModelMetric "InvocationThrottles" modelId Stats.SUM
            (props.period.getD (Duration.minutes 1))],
          setPeriodToTimeRange := true, width := 4 },
        Widget.singleValue {
          title := "Legacy invocations",
          metrics := [bedrockModelMetric "LegacyModelInvocations" modelId Stats.SUM
            (props.period.getD (Duration.minutes 1))],
          setPeriodToTimeRange := true, width := 4 },
        Widget.singleValue {
          title := "OutputImageCount",
          metrics := [bedrockModelMetric "OutputImageCount"
            (jsConcatOpt (jsConcatOpt modelId props.imageSize) props.bucketedStepSize)
            Stats.SUM (props.period.getD (Duration.minutes 1))],
          setPeriodToTimeRange := true, width := 4 }]] := rfl

/-- Cost-widget presence among the rows appended by `addModelMonitoring`
computes to the truthiness test of the two price options. -/
theorem costWidgetPresence_eq (d : Dashboard) (modelName modelId : String)
    (props : ModelMonitoringProps) :
    ((addModelMonitoring d modelName modelId props).widgets.drop d.widgets.length).flatten.any
        Widget.isCostWidget
      = (jsTruthy props.inputTokenPrice && jsTruthy props.outputTokenPrice) := by
  rw [addModelMonitoring_widgets, List.drop_left]
  cases hin : jsTruthy props.inputTokenPrice <;>
    cases hout : jsTruthy props.outputTokenPrice <;>
      simp [modelMonitoringRows, addModelMonitoring, Dashboard.addWidgets, pricingWidgetOf,
        hin, hout, Widget.isCostWidget]

/-! ### Claim theorems -/

/-- C1 (counterexample): calling `addModelMonitoring` with
`inputTokenPrice = 0` and `outputTokenPrice = 0.015` — both parameters given,
hence both non-null — appends a token/cost row without any
`Token Cost (USD)` widget, so cost-widget presence is not equivalent to
`inputPrice != null && outputPrice != null`. -/
theorem c1_counterexample :
    (some (0 : ℚ) ≠ none ∧ some (0.015 : ℚ) ≠ none)
    ∧ (modelMonitoringRows "Claude 3.5 Sonnet v2" "X"
        { inputTokenPrice := some 0, outputTokenPrice := some 0.015 }).flatten.any
        Widget.isCostWidget = false := by
  refine ⟨⟨by decide, by decide⟩, ?_⟩
  decide

/-- C1 (amended): for every call to `addModelMonitoring`, the
`Token Cost (USD)` graph widget is present among the appended widgets if and
only if both `inputTokenPrice` and `outputTokenPrice` are given and nonzero
(JavaScript-truthy); in particular with no price parameters no cost graph is
appended. -/
theorem c1_cost_widget_iff_truthy (d : Dashboard) (modelName modelId : String)
    (props : ModelMonitoringProps) :
    ((addModelMonitoring d modelName modelId props).widgets.drop d.widgets.length).flatten.any
        Widget.isCostWidget
      = (jsTruthy props.inputTokenPrice && jsTruthy props.outputTokenPrice) :=
  costWidgetPresence_eq d modelName modelId props

/-- C3: the presence of the cost widget among the widgets appended by
`addModelMonitoring` equals the truthiness test of both price options, and it
is invariant under change of every other input (dashboard, names, identifiers,
period, image options, or price values of equal truthiness). -/
theorem c3_cost_widget_pure_function (d d2 : Dashboard)
    (modelName modelName2 modelId modelId2 : String)
    (props props2 : ModelMonitoringProps)
    (hin : jsTruthy props.inputTokenPrice = jsTruthy props2.inputTokenPrice)
    (hout : jsTruthy props.outputTokenPrice = jsTruthy props2.outputTokenPrice) :
    ((addModelMonitoring d modelName modelId props).widgets.drop d.widgets.length).flatten.any
        Widget.isCostWidget
      = (jsTruthy props.inputTokenPrice && jsTruthy props.outputTokenPrice)
    ∧ ((addModelMonitoring d modelName modelId props).widgets.drop d.widgets.length).flatten.any
        Widget.isCostWidget
      = ((addModelMonitoring d2 modelName2 modelId2 props2).widgets.drop
          d2.widgets.length).flatten.any Widget.isCostWidget := by
  rw [costWidgetPresence_eq, costWidgetPresence_eq, hin, hout]
  exact ⟨rfl, rfl⟩

/-- Witness for C3: two concrete calls differing in dashboard, names, period
and price values but agreeing on price truthiness have the cost widget alike. -/
theorem c3_cost_widget_pure_function_witness :
    ((addModelMonitoring { dashboardName := "A", widgets := [] } "m" "X"
        { inputTokenPrice := some 1, outputTokenPrice := some 2 }).widgets.drop
        (Dashboard.widgets { dashboardName := "A", widgets := [] }).length).flatten.any
        Widget.isCostWidget
      = (jsTruthy (some (1 : ℚ)) && jsTruthy (some (2 : ℚ)))
    ∧ ((addModelMonitoring { dashboardName := "A", widgets := [] } "m" "X"
        { inputTokenPrice := some 1, outputTokenPrice := some 2 }).widgets.drop
        (Dashboard.widgets { dashboardName := "A", widgets := [] }).length).flatten.any
        Widget.isCostWidget
      = ((addModelMonitoring { dashboardName := "B", widgets := [] } "n" "Y"
        { period := some 300, inputTokenPrice := some 3,
          outputTokenPrice := some 4 }).widgets.drop
        (Dashboard.widgets { dashboardName := "B", widgets := [] }).length).flatten.any
        Widget.isCostWidget :=
  c3_cost_widget_pure_function _ _ _ _ _ _ _ _ (by decide) (by decide)

/-- C2: every `addModelMonitoring` call appends exactly four widget rows, in
order: a title text row; a row of three latency single-value tiles
(average, minimum, maximum); a row led by the dual-axis token-count graph and
optionally followed by the cost graph; and a row of six single-value tiles
(invocations, client errors, server errors, throttles, legacy invocations,
output-image count). -/
theorem c2_appends_four_fixed_rows (d : Dashboard) (modelName modelId : String)
    (props : ModelMonitoringProps) :
    ∃ (t : TextWidgetProps) (avgP minP maxP : SingleValueWidgetProps)
      (tok : GraphWidgetProps) (rest : List Widget)
      (s1 s2 s3 s4 s5 s6 : SingleValueWidgetProps),
      (addModelMonitoring d modelName modelId props).widgets
        = d.widgets ++
          [[Widget.text t],
           [Widget.singleValue avgP, Widget.singleValue minP, Widget.singleValue maxP],
           Widget.graph tok :: rest,
           [Widget.singleValue s1, Widget.singleValue s2, Widget.singleValue s3,
            Widget.singleValue s4, Widget.singleValue s5, Widget.singleValue s6]]
      ∧ t.markdown = "# " ++ modelName
      ∧ avgP.title = "Average Latency" ∧ minP.title = "Min Latency"
      ∧ maxP.title = "Max Latency"
      ∧ (avgP.metrics.map Metric.statistic = [Stats.AVERAGE]
          ∧ minP.metrics.map Metric.statistic = [Stats.MINIMUM]
          ∧ maxP.metrics.map Metric.statistic = [Stats.MAXIMUM])
      ∧ tok.title = "Input and Output Token Counts"
      ∧ (tok.left.flatMap GraphSeries.metricRefs).map Metric.metricName = ["InputTokenCount"]
      ∧ (tok.right.flatMap GraphSeries.metricRefs).map Metric.metricName = ["OutputTokenCount"]
      ∧ s1.title = "Invocations" ∧ s2.title = "Client Errors" ∧ s3.title = "Server Errors"
      ∧ s4.title = "Throttled invocations" ∧ s5.title = "Legacy invocations"
      ∧ s6.title = "OutputImageCount"
      ∧ (rest = []
          ∨ ∃ g : GraphWidgetProps, rest = [Widget.graph g]
              ∧ g.title = "Token Cost (USD)") := by
  rw [addModelMonitoring_widgets d modelName modelId props, modelMonitoringRows_eq]
  refine ⟨_, _, _, _, _, _, _, _, _, _, _, _, rfl, rfl, rfl, rfl, rfl, ⟨rfl, rfl, rfl⟩,
    rfl, rfl, rfl, rfl, rfl, rfl, rfl, rfl, rfl, ?_⟩
  cases hc : (jsTruthy props.inputTokenPrice && jsTruthy props.outputTokenPrice)
  · exact Or.inl (by simp only [pricingWidgetOf, hc]; rfl)
  · exact Or.inr ⟨_, by simp only [pricingWidgetOf, hc]; rfl, rfl⟩

/-- C4: calling `addModelMonitoring` with model id `X`,
`inputTokenPrice = 0.003`, `outputTokenPrice = 0.015` and the default period
yields a token/cost row whose cost graph holds exactly three math-expression
series — input cost, output cost on the left axis and total cost on the right
axis — where input cost evaluates to `inputTokens / 1000 * 0.003`, output cost
to `outputTokens / 1000 * 0.015`, each linear in its token metric, and total
cost is their sum. -/
theorem c4_cost_expressions :
    ∃ (tok costW : GraphWidgetProps) (e1 e2 e3 : MathExpression),
      (modelMonitoringRows "Claude 3.5 Sonnet v2" "X"
          { inputTokenPrice := some 0.003, outputTokenPrice := some 0.015 })[2]?
        = some [Widget.graph tok, Widget.graph costW]
      ∧ costW.title = "Token Cost (USD)"
      ∧ costW.left = [GraphSeries.math e1, GraphSeries.math e2]
      ∧ costW.right = [GraphSeries.math e3]
      ∧ e1.label = "Input Token Cost" ∧ e2.label = "Output Token Cost"
      ∧ e3.label = "Total Cost"
      ∧ e1.usingMetrics.map (fun q => q.2.metricName) = ["InputTokenCount"]
      ∧ e2.usingMetrics.map (fun q => q.2.metricName) = ["OutputTokenCount"]
      ∧ e3.usingMetrics.map (fun q => q.2.metricName)
          = ["InputTokenCount", "OutputTokenCount"]
      ∧ (∀ env : String → ℚ,
          e1.expression.eval env = env "inputTokens" / 1000 * 0.003)
      ∧ (∀ env : String → ℚ,
          e2.expression.eval env = env "outputTokens" / 1000 * 0.015)
      ∧ (∀ env : String → ℚ,
          e3.expression.eval env = e1.expression.eval env + e2.expression.eval env)
      ∧ (∀ env : String → ℚ,
          e1.expression.eval env = 0.003 / 1000 * env "inputTokens")
      ∧ (∀ env : String → ℚ,
          e2.expression.eval env = 0.015 / 1000 * env "outputTokens") := by
  refine ⟨{
      title := "Input and Output Token Counts",
      left := [GraphSeries.metric
        (bedrockModelMetric "InputTokenCount" "X" Stats.SUM (Duration.minutes 1))],
      right := [GraphSeries.metric
        (bedrockModelMetric "OutputTokenCount" "X" Stats.SUM (Duration.minutes 1))],
      period := some (Duration.minutes 1), width := 12, height := some 10 },
    { title := "Token Cost (USD)",
      left := [
        GraphSeries.math {
          expression := Expr.mul (Expr.div (Expr.var "inputTokens") (Expr.lit 1000))
            (Expr.lit 0.003),
          usingMetrics := [("inputTokens",
            bedrockModelMetric "InputTokenCount" "X" Stats.SUM (Duration.minutes 1))],
          label := "Input Token Cost" },
        GraphSeries.math {
          expression := Expr.mul (Expr.div (Expr.var "outputTokens") (Expr.lit 1000))
            (Expr.lit 0.015),
          usingMetrics := [("outputTokens",
            bedrockModelMetric "OutputTokenCount" "X" Stats.SUM (Duration.minutes 1))],
          label := "Output Token Cost" }],
      leftYAxis := some { label := some "Input and Output", showUnits := some false },
      right := [
        GraphSeries.math {
          expression := Expr.add
            (Expr.mul (Expr.div (Expr.var "inputTokens") (Expr.lit 1000)) (Expr.lit 0.003))
            (Expr.mul (Expr.div (Expr.var "outputTokens") (Expr.lit 1000)) (Expr.lit 0.015)),
          usingMetrics := [
            ("inputTokens",
              bedrockModelMetric "InputTokenCount" "X" Stats.SUM (Duration.minutes 1)),
            ("outputTokens",
              bedrockModelMetric "OutputTokenCount" "X" Stats.SUM (Duration.minutes 1))],
          label := "Total Cost" }],
      rightYAxis := some { label := some "Total", showUnits := some false },
      width := 12, height := some 10 },
    { expression := Expr.mul (Expr.div (Expr.var "inputTokens") (Expr.lit 1000))
        (Expr.lit 0.003),
      usingMetrics := [("inputTokens",
        bedrockModelMetric "InputTokenCount" "X" Stats.SUM (Duration.minutes 1))],
      label := "Input Token Cost" },
    { expression := Expr.mul (Expr.div (Expr.var "outputTokens") (Expr.lit 1000))
        (Expr.lit 0.015),
      usingMetrics := [("outputTokens",
        bedrockModelMetric "OutputTokenCount" "X" Stats.SUM (Duration.minutes 1))],
      label := "Output Token Cost" },
    { expression := Expr.add
        (Expr.mul (Expr.div (Expr.var "inputTokens") (Expr.lit 1000)) (Expr.lit 0.003))
        (Expr.mul (Expr.div (Expr.var "outputTokens") (Expr.lit 1000)) (Expr.lit 0.015)),
      usingMetrics := [
        ("inputTokens",
          bedrockModelMetric "InputTokenCount" "X" Stats.SUM (Duration.minutes 1)),
        ("outputTokens",
          bedrockModelMetric "OutputTokenCount" "X" Stats.SUM (Duration.minutes 1))],
      label := "Total Cost" },
    ?_, rfl, rfl, rfl, rfl, rfl, rfl, rfl, rfl, rfl,
    fun env => rfl, fun env => rfl, fun env => rfl,
    fun env => by simp only [Expr.eval]; ring,
    fun env => by simp only [Expr.eval]; ring⟩
  rw [modelMonitoringRows_eq]
  have hc : (jsTruthy (some (0.003 : ℚ)) && jsTruthy (some (0.015 : ℚ))) = true := by
    simp only [jsTruthy, Bool.and_eq_true, decide_eq_true_eq]
    norm_num
  simp [pricingWidgetOf, hc]

/-- C5: `addModelMonitoring` is append-only and performs no deduplication:
a call leaves the existing rows untouched, and two identical calls append the
row block twice, doubling the added row and widget counts. -/
theorem c5_no_dedup (d : Dashboard) (modelName modelId : String)
    (props : ModelMonitoringProps) :
    (addModelMonitoring (addModelMonitoring d modelName modelId props)
        modelName modelId props).widgets
      = d.widgets ++ modelMonitoringRows modelName modelId props
          ++ modelMonitoringRows modelName modelId props
    ∧ (addModelMonitoring (addModelMonitoring d modelName modelId props)
        modelName modelId props).widgets.length
      = d.widgets.length + 2 * (modelMonitoringRows modelName modelId props).length
    ∧ (addModelMonitoring (addModelMonitoring d modelName modelId props)
        modelName modelId props).widgets.flatten.length
      = d.widgets.flatten.length
          + 2 * (modelMonitoringRows modelName modelId props).flatten.length
    ∧ (addModelMonitoring d modelName modelId props).widgets.take d.widgets.length
      = d.widgets := by
  refine ⟨?_, ?_, ?_, ?_⟩
  · rw [addModelMonitoring_widgets, addModelMonitoring_widgets]
  · rw [addModelMonitoring_widgets, addModelMonitoring_widgets]
    simp [List.length_append]
    omega
  · rw [addModelMonitoring_widgets, addModelMonitoring_widgets]
    simp [List.flatten_append, List.length_append]
    omega
  · rw [addModelMonitoring_widgets]
    exact List.take_left d.widgets _

/-- C6: when the period option is omitted, every metric reference built by the
`addModelMonitoring` call uses the same default period of one minute. -/
theorem c6_default_period_one_minute (d : Dashboard) (modelName modelId : String)
    (props : ModelMonitoringProps) (h : props.period = none) :
    (((addModelMonitoring d modelName modelId props).widgets.drop
        d.widgets.length).flatten.map Widget.metricRefs).flatten.all
      (fun m => m.period == Duration.minutes 1) = true := by
  rw [addModelMonitoring_widgets, List.drop_left, modelMonitoringRows_eq]
  cases hcase : (jsTruthy props.inputTokenPrice && jsTruthy props.outputTokenPrice) <;>
    simp [pricingWidgetOf, hcase, Widget.metricRefs, GraphSeries.metricRefs,
      bedrockModelMetric, h]

/-- Witness for C6: the call of the stack entry point for Claude 3.7 Sonnet
with an empty configuration has every appended metric at a 60-second period. -/
theorem c6_default_period_one_minute_witness :
    ({} : ModelMonitoringProps).period = none
    ∧ (((addModelMonitoring { dashboardName := "AnyBooksMonitoringDashboard", widgets := [] }
          "Claude 3.7 Sonnet" "us.anthropic.claude-3-7-sonnet-20250219-v1:0" {}).widgets.drop
          (Dashboard.widgets
            { dashboardName := "AnyBooksMonitoringDashboard",
              widgets := [] }).length).flatten.map Widget.metricRefs).flatten.all
        (fun m => m.period == Duration.minutes 1) = true :=
  ⟨rfl, c6_default_period_one_minute _ "Claude 3.7 Sonnet"
    "us.anthropic.claude-3-7-sonnet-20250219-v1:0" {} rfl⟩

/-- C7: every `addAllModelsMonitoring` call appends exactly three gauge widgets
(average, minimum and maximum latency across all models), each carrying the
same three fixed threshold annotations with values 5000, 5000, 8000 and fixed
colors, independent of the configuration. -/
theorem c7_three_fixed_gauges (d : Dashboard) (props : ModelMonitoringProps) :
    (gaugeWidgetsOf ((addAllModelsMonitoring d props).widgets.drop d.widgets.length)).length
      = 3
    ∧ (gaugeWidgetsOf ((addAllModelsMonitoring d props).widgets.drop
        d.widgets.length)).map GaugeWidgetProps.title
      = ["Average Latency (All Models)", "Min Latency (All Models)",
         "Max Latency (All Models)"]
    ∧ (gaugeWidgetsOf ((addAllModelsMonitoring d props).widgets.drop
        d.widgets.length)).map (fun g => g.metrics.map Metric.statistic)
      = [[Stats.AVERAGE], [Stats.MINIMUM], [Stats.MAXIMUM]]
    ∧ (gaugeWidgetsOf ((addAllModelsMonitoring d props).widgets.drop
        d.widgets.length)).map GaugeWidgetProps.annotations
      = [[{ color := "#b2df8d", label := "5초 미만", value := 5000,
            fill := some Shading.BELOW },
          { color := "#f89256", label := "5초 초과 8초 미만", value := 5000,
            fill := some Shading.ABOVE },
          { color := "#fe6e73", label := "8초 초과", value := 8000,
            fill := some Shading.ABOVE }],
         [{ color := "#b2df8d", label := "5초 미만", value := 5000,
            fill := some Shading.BELOW },
          { color := "#f89256", label := "5초 초과 8초 미만", value := 5000,
            fill := some Shading.ABOVE },
          { color := "#fe6e73", label := "8초 초과", value := 8000,
            fill := some Shading.ABOVE }],
         [{ color := "#b2df8d", label := "5초 미만", value := 5000,
            fill := some Shading.BELOW },
          { color := "#f89256", label := "5초 초과 8초 미만", value := 5000,
            fill := some Shading.ABOVE },
          { color := "#fe6e73", label := "8초 초과", value := 8000,
            fill := some Shading.ABOVE }]] := by
  rw [addAllModelsMonitoring_widgets, List.drop_left]
  exact ⟨rfl, rfl, rfl, rfl⟩

/-- C8: the `BedrockCwDashboard` constructor reuses a supplied existing
dashboard; otherwise it creates one fresh dashboard named by the caller or by
the fixed default `AnyBooksMonitoringDashboard`; and in every case the
registered output value is the console URL built from the deployment region
and the resolved dashboard name. -/
theorem c8_constructor (region name : String) (ed : Dashboard)
    (props : BedrockCwDashboardProps) :
    (mkBedrockCwDashboard region
        { existingDashboard := some ed, dashboardName := props.dashboardName }).dashboard = ed
    ∧ (mkBedrockCwDashboard region
        { existingDashboard := none, dashboardName := some name }).dashboard
      = { dashboardName := name, widgets := [] }
    ∧ (mkBedrockCwDashboard region
        { existingDashboard := none, dashboardName := none }).dashboard
      = { dashboardName := "AnyBooksMonitoringDashboard", widgets := [] }
    ∧ (mkBedrockCwDashboard region props).outputValue
      = "https://" ++ region ++ ".console.aws.amazon.com/cloudwatch/home?region="
          ++ region ++ "#dashboards:name="
          ++ (mkBedrockCwDashboard region props).dashboard.dashboardName :=
  ⟨rfl, rfl, rfl, rfl⟩

/-- C9: with `imageSize` and `bucketedStepSize` omitted, the `ModelId`
dimension of the `OutputImageCount` metric built by `addModelMonitoring` is the
model identifier followed by the literal text `undefinedundefined`, not the
model identifier alone. -/
theorem c9_output_image_dimension (d : Dashboard) (modelName modelId : String)
    (props : ModelMonitoringProps) (h1 : props.imageSize = none)
    (h2 : props.bucketedStepSize = none) :
    (((addModelMonitoring d modelName modelId props).widgets.drop
        d.widgets.length).flatten.map Widget.metricRefs).flatten.filterMap
      (fun m => if m.metricName == "OutputImageCount" then some m.dimensionsMap else none)
      = [[("ModelId", modelId ++ "undefinedundefined")]] := by
  rw [addModelMonitoring_widgets, List.drop_left, modelMonitoringRows_eq]
  have hundef : ("undefined" : String) ++ "undefined" = "undefinedundefined" := rfl
  cases hcase : (jsTruthy props.inputTokenPrice && jsTruthy props.outputTokenPrice) <;>
    simp [pricingWidgetOf, hcase, Widget.metricRefs, GraphSeries.metricRefs,
      bedrockModelMetric, jsConcatOpt, h1, h2, String.append_assoc, hundef]

/-- Witness for C9: with the empty configuration and model id `X`, the
`OutputImageCount` dimension value is `Xundefinedundefined`. -/
theorem c9_output_image_dimension_witness :
    ({} : ModelMonitoringProps).imageSize = none
    ∧ ({} : ModelMonitoringProps).bucketedStepSize = none
    ∧ (((addModelMonitoring { dashboardName := "D", widgets := [] } "m" "X" {}).widgets.drop
          (Dashboard.widgets
            { dashboardName := "D", widgets := [] }).length).flatten.map
          Widget.metricRefs).flatten.filterMap
        (fun m => if m.metricName == "OutputImageCount" then some m.dimensionsMap else none)
        = [[("ModelId", "X" ++ "undefinedundefined")]] :=
  ⟨rfl, rfl, c9_output_image_dimension _ "m" "X" {} rfl rfl⟩

/-- C10: the widgets appended by `addAllModelsMonitoring` depend only on the
period option — two configurations agreeing on `period` produce identical
results — and the `[Claude 3.5 Sonnet] 분당 호출 수` graph and its invocation
metric use a hard-coded one-minute period regardless of the configured
period. -/
theorem c10_allmodels_period_only (d : Dashboard) (props1 props2 : ModelMonitoringProps)
    (h : props1.period = props2.period) :
    addAllModelsMonitoring d props1 = addAllModelsMonitoring d props2
    ∧ (claudePerMinGraphsOf ((addAllModelsMonitoring d props1).widgets.drop
        d.widgets.length)).map
        (fun g => (g.period, (g.left.flatMap GraphSeries.metricRefs).map Metric.period))
      = [(some (Duration.minutes 1), [Duration.minutes 1])] := by
  constructor
  · simp only [addAllModelsMonitoring, h]
  · rw [addAllModelsMonitoring_widgets, List.drop_left]
    rfl

/-- Witness for C10: two configurations sharing a 300-second period but with
different prices and image options yield identical all-models widgets, and the
Claude per-minute graph stays at the one-minute period. -/
theorem c10_allmodels_period_only_witness :
    addAllModelsMonitoring { dashboardName := "D", widgets := [] }
        { period := some 300, inputTokenPrice := some 1 }
      = addAllModelsMonitoring { dashboardName := "D", widgets := [] }
        { period := some 300, imageSize := some "512x512", outputTokenPrice := some 7 }
    ∧ (claudePerMinGraphsOf ((addAllModelsMonitoring
          { dashboardName := "D", widgets := [] }
          { period := some 300, inputTokenPrice := some 1 }).widgets.drop
        (Dashboard.widgets { dashboardName := "D", widgets := [] }).length)).map
        (fun g => (g.period, (g.left.flatMap GraphSeries.metricRefs).map Metric.period))
      = [(some (Duration.minutes 1), [Duration.minutes 1])] :=
  c10_allmodels_period_only { dashboardName := "D", widgets := [] }
    { period := some 300, inputTokenPrice := some 1 }
    { period := some 300, imageSize := some "512x512", outputTokenPrice := some 7 } rfl

end BedrockCW
